import Mathlib

/-!
# Verification of the Attractor graph execution engine

Shallow embedding of the execution core of the `getaonepageapp` repository:
the eight-node graph executor (`src/lib/graph-executor.ts`), the node output
parsers and the procedural sanity check (`src/lib/graph-nodes.ts`), the slug
derivation of the deploy client (`src/lib/cloudflare-deploy.ts`) and the
credit ledger (`src/lib/graph-state.ts`).

Modelling conventions:
* JavaScript numbers used as scores are modelled as `ℚ`; the counters
  (`generateAttempts`, `iterationCount`) and the credit counts as `ℤ`.
* Strings are Lean `String`s; `str.trim()`, `str.toLowerCase()` and
  `str.includes(..)` are modelled over the character list (`Char.toLower`
  is the ASCII case map).
* Every external call (the generation service, the wrangler deploy CLI,
  the KV store, the email service) is abstracted into an `Oracle` that
  fixes the outcome of each call of a run; a thrown exception is an
  `Except.error` carrying the message.  The JSON decode step
  (`stripCodeFences` + `JSON.parse`) is part of that boundary: the oracle
  yields either the decoded record or the thrown decode/API error, and the
  post-decode logic of the `parse*Output` functions is modelled explicitly.
* The unbounded `while` loop of `executeGraph` is modelled with explicit
  fuel: `none` means the loop did not exit within the given fuel.
* Wall-clock data (timestamps, durations, `updatedAt`) are omitted from the
  modelled records; no claim concerns them.
-/

/- ─── Graph topology (graph-types.ts) ─── -/

inductive NodeId where
  | assess
  | generate
  | validate
  | sanity_check
  | build
  | build_validate
  | deploy
  | deliver
deriving DecidableEq, Repr

/-- Run status of a session (`SessionStatus` in graph-types.ts). -/
inductive SessionStatus where
  | running
  | completed
  | failed
deriving DecidableEq, Repr

/- ─── Intake domain types (intake-types.ts) ─── -/

structure BusinessInfo where
  businessName : String
  businessType : String
  industry : String
  website : String
deriving DecidableEq, Repr

structure ProjectDescription where
  description : String
  goals : String
  callToAction : String
  content : String
  imageNotes : String
deriving DecidableEq, Repr

structure StylePreferences where
  stylePreset : String
  primaryColor : String
  secondaryColor : String
  styleNotes : String
  inspirationUrls : String
deriving DecidableEq, Repr

structure ContactInfo where
  name : String
  email : String
  phone : String
  preferredContact : String
  additionalNotes : String
deriving DecidableEq, Repr

structure ProjectIntakeData where
  business : BusinessInfo
  project : ProjectDescription
  style : StylePreferences
  contact : ContactInfo
deriving DecidableEq, Repr

structure SiteSection where
  sectionName : String
  purpose : String
  suggestedContent : String
deriving DecidableEq, Repr

structure SiteSpec where
  headline : String
  subheadline : String
  seoDescription : String
  sections : List SiteSection
deriving DecidableEq, Repr

/- ─── Per-node output records (graph-types.ts).
   The `edge` field is the runtime string the decoded JSON carried
   (TypeScript's literal union types are erased at runtime). ─── -/

structure AssessOutput where
  qualityScore : ℚ
  missingElements : List String
  qualityNotes : String
  edge : String
deriving DecidableEq, Repr

structure GenerateOutput where
  refinedBrief : String
  siteSpec : SiteSpec
  edge : String
deriving DecidableEq, Repr

structure ValidateScores where
  clarity : ℚ
  completeness : ℚ
  ctaStrength : ℚ
  sectionFlow : ℚ
deriving DecidableEq, Repr

structure ValidateOutput where
  scores : ValidateScores
  overallScore : ℚ
  critique : String
  suggestions : List String
  edge : String
deriving DecidableEq, Repr

structure SanityCheckOutput where
  qualifies : Bool
  reasons : List String
  edge : String
deriving DecidableEq, Repr

structure BuildOutput where
  html : String
  buildNotes : String
  edge : String
deriving DecidableEq, Repr

structure BuildValidateScores where
  structuralIntegrity : ℚ
  responsiveness : ℚ
  accessibility : ℚ
  brandAlignment : ℚ
deriving DecidableEq, Repr

structure BuildValidateOutput where
  scores : BuildValidateScores
  overallScore : ℚ
  issues : List String
  edge : String
deriving DecidableEq, Repr

structure DeployOutput where
  projectName : String
  deploymentUrl : String
  deploymentId : String
  edge : String
deriving DecidableEq, Repr

structure DeliverOutput where
  teamEmailSent : Bool
  clientEmailSent : Bool
  creditsRemaining : ℤ
  siteUrl : Option String
  edge : String
deriving DecidableEq, Repr

inductive NodeOutput where
  | assessOut (o : AssessOutput)
  | generateOut (o : GenerateOutput)
  | validateOut (o : ValidateOutput)
  | sanityOut (o : SanityCheckOutput)
  | buildOut (o : BuildOutput)
  | buildValidateOut (o : BuildValidateOutput)
  | deployOut (o : DeployOutput)
  | deliverOut (o : DeliverOutput)
deriving DecidableEq, Repr

/- ─── Execution context and state (graph-types.ts) ─── -/

structure SessionContext where
  intakeData : ProjectIntakeData
  plainText : String
  assessment : Option AssessOutput
  enhancement : Option GenerateOutput
  validation : Option ValidateOutput
  sanityCheck : Option SanityCheckOutput
  build : Option BuildOutput
  buildValidation : Option BuildValidateOutput
  deployment : Option DeployOutput
  delivery : Option DeliverOutput
  generateAttempts : ℤ
  iterationCount : ℤ
deriving DecidableEq, Repr

/-- A logged node transition (`NodeTransition`); the wall-clock
`timestamp`/`durationMs` fields are not modelled. `from` and `to` are
Lean keywords, hence `from_`/`to_`. -/
structure NodeTransition where
  from_ : NodeId
  to_ : NodeId
  edge : String
deriving DecidableEq, Repr

structure ExecutionState where
  sessionId : String
  currentNode : NodeId
  context : SessionContext
  history : List NodeTransition
  status : SessionStatus
  error : Option String
deriving DecidableEq, Repr

structure GraphResult where
  sessionId : String
  status : SessionStatus
  enhancement : Option GenerateOutput
  validationScore : Option ℚ
  creditsRemaining : Option ℤ
  siteUrl : Option String
  history : List NodeTransition
deriving DecidableEq, Repr

/- ─── Credit system (graph-types.ts / graph-state.ts) ─── -/

structure CreditRecord where
  email : String
  total : ℤ
  used : ℤ
  plan : String
deriving DecidableEq, Repr

def CREDITS_INCLUDED : ℤ := 3

/-- `deductCredit` (graph-state.ts): acts on the record fetched by
`getOrCreateCredits`; throws when no credit remains (the store is then
left unchanged), otherwise returns the record that is saved back with
`used` incremented by one. -/
def deductCredit (record : CreditRecord) : Except String CreditRecord :=
  let remaining := record.total - record.used
  if remaining ≤ 0 then Except.error "No credits remaining"
  else Except.ok { record with used := record.used + 1 }

/-- `creditsRemaining` (graph-state.ts): `Math.max(0, total - used)`. -/
def creditsRemaining (record : CreditRecord) : ℤ :=
  max 0 (record.total - record.used)

/- ─── String helpers (JS semantics) ─── -/

/-- JS truthiness of a string value: the empty string is falsy. -/
def strTruthy (s : String) : Bool := !(s == "")

/-- JS truthiness of an optional string (absent or empty ⇒ falsy). -/
def optTruthy : Option String → Bool
  | none => false
  | some s => strTruthy s

/-- `pat` occurs as a contiguous substring of `hay` (JS `String.includes`). -/
def containsSub (pat : List Char) : List Char → Bool
  | [] => pat.isEmpty
  | c :: t => pat.isPrefixOf (c :: t) || containsSub pat t

/-- JS `s.includes(sub)`. -/
def stringIncludes (s sub : String) : Bool := containsSub sub.data s.data

/- ─── Slug derivation (cloudflare-deploy.ts) ─── -/

/-- A character the slug keeps: regex class `[a-z0-9]` (the input has
already been lowercased). -/
def isSlugChar (c : Char) : Bool :=
  decide ('a' ≤ c ∧ c ≤ 'z') || decide ('0' ≤ c ∧ c ≤ '9')

/-- `.replace(/[^a-z0-9]+/g, "-")`: each maximal run of non-slug
characters becomes a single hyphen.  The boolean argument records whether
the previous character belonged to such a run. -/
def collapseGo : List Char → Bool → List Char
  | [], _ => []
  | c :: rest, inRun =>
    if isSlugChar c then c :: collapseGo rest false
    else if inRun then collapseGo rest true
    else '-' :: collapseGo rest true

def collapseRuns (l : List Char) : List Char := collapseGo l false

/-- `.replace(/^-+|-+$/g, "")`: drop leading and trailing hyphens. -/
def trimHyphens (l : List Char) : List Char :=
  ((l.dropWhile (fun c => c == '-')).reverse.dropWhile (fun c => c == '-')).reverse

/-- `slugifyProjectName` (cloudflare-deploy.ts): lowercase, collapse
non-alphanumeric runs to hyphens, trim hyphens, `.slice(0, 58)`,
`|| "site"` when the result is empty. -/
def slugifyProjectName (businessName : String) : String :=
  let lowered := businessName.data.map Char.toLower
  let sliced := (trimHyphens (collapseRuns lowered)).take 58
  if sliced.isEmpty then "site" else String.mk sliced

/- ─── Sanity check (graph-nodes.ts) ─── -/

def VALID_PRESETS : List String := ["warm", "cool", "bold", "earth", "minimal", "custom"]

/-- `HEX_REGEX = /^#[0-9A-Fa-f]{6}$/` applied via `.test`. -/
def isHexDigitChar (c : Char) : Bool :=
  decide ('0' ≤ c ∧ c ≤ '9') || decide ('A' ≤ c ∧ c ≤ 'F') || decide ('a' ≤ c ∧ c ≤ 'f')

def hexColorOk (s : String) : Bool :=
  match s.data with
  | '#' :: rest => decide (rest.length = 6) && rest.all isHexDigitChar
  | _ => false

def SANITY_SCORE_THRESHOLD : ℚ := 6
def MIN_SECTIONS : ℕ := 3

/-- Check 1 of `evaluateSanityCheck`: `!spec || spec.sections.length < MIN_SECTIONS`. -/
def sanityFailSections (context : SessionContext) : Bool :=
  match context.enhancement with
  | none => true
  | some e => decide (e.siteSpec.sections.length < MIN_SECTIONS)

/-- Check 2: `!spec?.headline?.trim() || !spec?.subheadline?.trim()`. -/
def sanityFailHeadline (context : SessionContext) : Bool :=
  match context.enhancement with
  | none => true
  | some e => e.siteSpec.headline.trim == "" || e.siteSpec.subheadline.trim == ""

/-- Check 3: `validation && validation.overallScore < SANITY_SCORE_THRESHOLD`
(a missing validation slot does not fail the check). -/
def sanityFailScore (context : SessionContext) : Bool :=
  match context.validation with
  | none => false
  | some v => decide (v.overallScore < SANITY_SCORE_THRESHOLD)

/-- Check 4: `!VALID_PRESETS.includes(style.stylePreset)`. -/
def sanityFailPreset (context : SessionContext) : Bool :=
  !(VALID_PRESETS.contains context.intakeData.style.stylePreset)

/-- Check 5: custom preset with invalid hex colors. -/
def sanityFailCustomColors (context : SessionContext) : Bool :=
  context.intakeData.style.stylePreset == "custom" &&
    (!(hexColorOk context.intakeData.style.primaryColor) ||
     !(hexColorOk context.intakeData.style.secondaryColor))

/-- Check 6: `!ctx.intakeData.business.businessName?.trim()`. -/
def sanityFailName (context : SessionContext) : Bool :=
  context.intakeData.business.businessName.trim == ""

/-- The `${spec?.sections.length ?? 0}` interpolation of reason 1. -/
def sanitySectionCount (context : SessionContext) : ℕ :=
  match context.enhancement with
  | none => 0
  | some e => e.siteSpec.sections.length

/-- The interpolated score of reason 3 (`toFixed(1)` rendering is
abbreviated to `toString`; only the presence of the reason matters). -/
def sanityScoreText (context : SessionContext) : String :=
  match context.validation with
  | none => ""
  | some v => toString v.overallScore

/-- `evaluateSanityCheck` (graph-nodes.ts): the imperative
`reasons.push` / `qualifies = false` accumulation, rendered functionally
check by check in source order. -/
def evaluateSanityCheck (context : SessionContext) : SanityCheckOutput :=
  let fail1 := sanityFailSections context
  let fail2 := sanityFailHeadline context
  let fail3 := sanityFailScore context
  let fail4 := sanityFailPreset context
  let fail5 := sanityFailCustomColors context
  let fail6 := sanityFailName context
  let qualifies := !(fail1 || fail2 || fail3 || fail4 || fail5 || fail6)
  let reasons : List String :=
    (if fail1 then
       ["Site spec has " ++ toString (sanitySectionCount context) ++
        " sections (minimum " ++ toString MIN_SECTIONS ++ ")"] else []) ++
    (if fail2 then ["Missing headline or subheadline in site spec"] else []) ++
    (if fail3 then
       ["Validation score " ++ sanityScoreText context ++
        " is below auto-build threshold of " ++ toString SANITY_SCORE_THRESHOLD] else []) ++
    (if fail4 then
       ["Unrecognized style preset: \"" ++ context.intakeData.style.stylePreset ++ "\""] else []) ++
    (if fail5 then ["Custom colors are not valid hex values (#RRGGBB)"] else []) ++
    (if fail6 then ["Missing business name (required for deployment)"] else []) ++
    (if qualifies then ["All criteria met for auto-build"] else [])
  { qualifies := qualifies
    reasons := reasons
    edge := if qualifies then "auto_build" else "skip_build" }

/- ─── Output parsers (graph-nodes.ts).  Each takes the decoded JSON
   record (the oracle boundary covers `stripCodeFences` + `JSON.parse`)
   and applies the post-decode logic of the source. ─── -/

def parseAssessOutput (parsed : AssessOutput) : AssessOutput :=
  if parsed.edge == "proceed" then parsed else { parsed with edge := "proceed" }

def parseGenerateOutput (parsed : GenerateOutput) : GenerateOutput :=
  if parsed.edge == "generated" then parsed else { parsed with edge := "generated" }

/-- `parseValidateOutput`: recompute `overallScore` defensively from the
four sub-scores, discarding the self-reported value. -/
def parseValidateOutput (parsed : ValidateOutput) : ValidateOutput :=
  { parsed with
    overallScore :=
      (parsed.scores.clarity + parsed.scores.completeness +
       parsed.scores.ctaStrength + parsed.scores.sectionFlow) / 4 }

/-- `parseBuildOutput`: enforce the edge, then throw unless the `html`
field is non-empty and contains a document-root marker.  The JS condition
is `!html || !html.includes("<!DOCTYPE") && !html.includes("<html")`
(`&&` binds tighter than `||`). -/
def parseBuildOutput (parsed0 : BuildOutput) : Except String BuildOutput :=
  let parsed := if parsed0.edge == "built" then parsed0 else { parsed0 with edge := "built" }
  if parsed.html == "" ||
      (!(stringIncludes parsed.html "<!DOCTYPE") && !(stringIncludes parsed.html "<html")) then
    Except.error "Build output missing valid HTML document"
  else Except.ok parsed

/-- `parseBuildValidateOutput`: same defensive recomputation. -/
def parseBuildValidateOutput (parsed : BuildValidateOutput) : BuildValidateOutput :=
  { parsed with
    overallScore :=
      (parsed.scores.structuralIntegrity + parsed.scores.responsiveness +
       parsed.scores.accessibility + parsed.scores.brandAlignment) / 4 }

/- ─── Environment and call oracle (graph-executor.ts) ─── -/

/-- `GraphEnv`: the environment capability bundle.  Optional string
variables keep their JS truthiness (absent or empty ⇒ falsy); the KV
store handle is reduced to its presence, the stored data being supplied
by the `Oracle`. -/
structure GraphEnv where
  ANTHROPIC_API_KEY : String
  RESEND_API_KEY : Option String
  NOTIFY_EMAIL : Option String
  FROM_EMAIL : Option String
  kvConfigured : Bool
  CLOUDFLARE_API_TOKEN : Option String
  CLOUDFLARE_ACCOUNT_ID : Option String

/-- Result contract of `deployToCloudflare` (cloudflare-deploy.ts),
modelled at its boundary: it wraps one wrangler CLI invocation and either
returns these three fields or throws. -/
structure DeployResult where
  projectName : String
  deploymentUrl : String
  deploymentId : String
deriving DecidableEq, Repr

/-- Fixed outcomes of every external call of one run. Generation-backed
stages yield the decoded JSON record or the thrown API/decode error; the
`generate`/`validate` entries are indexed by the value of
`generateAttempts` at call time, which makes the traversal a
deterministic function of the oracle. -/
structure Oracle where
  assess : Except String AssessOutput
  generate : ℤ → Except String GenerateOutput
  validate : ℤ → Except String ValidateOutput
  build : Except String BuildOutput
  buildValidate : Except String BuildValidateOutput
  deploy : Except String DeployResult
  creditRecord : CreditRecord
  teamEmailOk : Bool
  clientEmailOk : Bool

/- ─── Constants (graph-executor.ts) ─── -/

def MAX_GENERATE_ATTEMPTS : ℤ := 2
def VALIDATE_PASS_THRESHOLD : ℚ := 7
def BUILD_VALIDATE_THRESHOLD : ℚ := 7

/- ─── Node executor (graph-executor.ts, executeNode) ─── -/

structure StepResult where
  output : NodeOutput
  nextNode : NodeId
  edge : String
deriving DecidableEq, Repr

/-- `executeNode`: one stage.  Returns the (possibly mutated) context
together with the routing result or the propagated exception.  The
`deliver` case is excluded at the type level in the source
(`Exclude<NodeId, "deliver">`); it is mapped to an error here and never
invoked by the loop. -/
def executeNode (nodeId : NodeId) (context : SessionContext) (env : GraphEnv)
    (o : Oracle) : SessionContext × Except String StepResult :=
  match nodeId with
  | NodeId.assess =>
    (context, o.assess.map fun raw =>
      { output := NodeOutput.assessOut (parseAssessOutput raw)
        nextNode := NodeId.generate, edge := "proceed" })
  | NodeId.generate =>
    let context := { context with generateAttempts := context.generateAttempts + 1 }
    (context, (o.generate context.generateAttempts).map fun raw =>
      { output := NodeOutput.generateOut (parseGenerateOutput raw)
        nextNode := NodeId.validate, edge := "generated" })
  | NodeId.validate =>
    (context, (o.validate context.generateAttempts).map fun raw =>
      let output := parseValidateOutput raw
      let canRetry := context.generateAttempts < MAX_GENERATE_ATTEMPTS
      if VALIDATE_PASS_THRESHOLD ≤ output.overallScore then
        { output := NodeOutput.validateOut output
          nextNode := NodeId.sanity_check, edge := "passes" }
      else if canRetry then
        { output := NodeOutput.validateOut output
          nextNode := NodeId.generate, edge := "needs_revision" }
      else
        { output := NodeOutput.validateOut output
          nextNode := NodeId.sanity_check, edge := "max_retries" })
  | NodeId.sanity_check =>
    let output := evaluateSanityCheck context
    (context, Except.ok
      { output := NodeOutput.sanityOut output
        nextNode := if output.qualifies then NodeId.build else NodeId.deliver
        edge := output.edge })
  | NodeId.build =>
    match o.build with
    | Except.error e =>
      let fallback : BuildOutput :=
        { html := "", buildNotes := "Build failed: " ++ e, edge := "built" }
      ({ context with build := some fallback }, Except.ok
        { output := NodeOutput.buildOut fallback
          nextNode := NodeId.deliver, edge := "build_failed" })
    | Except.ok raw =>
      match parseBuildOutput raw with
      | Except.error e =>
        let fallback : BuildOutput :=
          { html := "", buildNotes := "Build failed: " ++ e, edge := "built" }
        ({ context with build := some fallback }, Except.ok
          { output := NodeOutput.buildOut fallback
            nextNode := NodeId.deliver, edge := "build_failed" })
      | Except.ok output =>
        (context, Except.ok
          { output := NodeOutput.buildOut output
            nextNode := NodeId.build_validate, edge := "built" })
  | NodeId.build_validate =>
    match o.buildValidate with
    | Except.error e =>
      let fallback : BuildValidateOutput :=
        { scores := { structuralIntegrity := 0, responsiveness := 0,
                      accessibility := 0, brandAlignment := 0 }
          overallScore := 0
          issues := ["Validation error: " ++ e]
          edge := "html_fails" }
      (context, Except.ok
        { output := NodeOutput.buildValidateOut fallback
          nextNode := NodeId.deliver, edge := "html_fails" })
    | Except.ok raw =>
      let output := parseBuildValidateOutput raw
      if BUILD_VALIDATE_THRESHOLD ≤ output.overallScore then
        (context, Except.ok
          { output := NodeOutput.buildValidateOut output
            nextNode := NodeId.deploy, edge := "html_passes" })
      else
        (context, Except.ok
          { output := NodeOutput.buildValidateOut output
            nextNode := NodeId.deliver, edge := "html_fails" })
  | NodeId.deploy =>
    if !(optTruthy env.CLOUDFLARE_API_TOKEN) || !(optTruthy env.CLOUDFLARE_ACCOUNT_ID) then
      let fallback : DeployOutput :=
        { projectName := "", deploymentUrl := "", deploymentId := "", edge := "deployed" }
      (context, Except.ok
        { output := NodeOutput.deployOut fallback
          nextNode := NodeId.deliver, edge := "deploy_failed" })
    else
      match o.deploy with
      | Except.error _ =>
        let fallback : DeployOutput :=
          { projectName := "", deploymentUrl := "", deploymentId := "", edge := "deployed" }
        (context, Except.ok
          { output := NodeOutput.deployOut fallback
            nextNode := NodeId.deliver, edge := "deploy_failed" })
      | Except.ok result =>
        (context, Except.ok
          { output := NodeOutput.deployOut
              { projectName := result.projectName
                deploymentUrl := result.deploymentUrl
                deploymentId := result.deploymentId
                edge := "deployed" }
            nextNode := NodeId.deliver, edge := "deployed" })
  | NodeId.deliver =>
    (context, Except.error "executeNode is never invoked on the deliver node")

/- ─── applyOutput (graph-executor.ts) ─── -/

/-- `applyOutput`: write the node's output into the context slot it owns.
The TypeScript version casts untyped; a tag mismatch cannot occur in the
executor and leaves the context unchanged here. -/
def applyOutput (context : SessionContext) (nodeId : NodeId) (output : NodeOutput) :
    SessionContext :=
  match nodeId, output with
  | NodeId.assess, NodeOutput.assessOut o => { context with assessment := some o }
  | NodeId.generate, NodeOutput.generateOut o => { context with enhancement := some o }
  | NodeId.validate, NodeOutput.validateOut o => { context with validation := some o }
  | NodeId.sanity_check, NodeOutput.sanityOut o => { context with sanityCheck := some o }
  | NodeId.build, NodeOutput.buildOut o => { context with build := some o }
  | NodeId.build_validate, NodeOutput.buildValidateOut o =>
    { context with buildValidation := some o }
  | NodeId.deploy, NodeOutput.deployOut o => { context with deployment := some o }
  | _, _ => context

/- ─── Deliver node (graph-executor.ts, executeDeliverNode) ─── -/

/-- `executeDeliverNode`: terminal procedural stage.  Throws only when
the enhancement slot is empty; the credit deduction failure is caught
(the catch re-reads the unchanged stored record); the two email
dispatches are collected with `Promise.allSettled` (the skipped client
email is a fulfilled `null`, hence counted as sent in the source). -/
def executeDeliverNode (context : SessionContext) (env : GraphEnv) (o : Oracle) :
    Except String DeliverOutput :=
  let email := context.intakeData.contact.email
  match context.enhancement with
  | none => Except.error "Cannot deliver: no enhancement output from generate node"
  | some _ =>
    let siteUrl : Option String :=
      match context.deployment with
      | some d => if d.deploymentUrl == "" then none else some d.deploymentUrl
      | none => none
    let remaining : ℤ :=
      if env.kvConfigured && strTruthy email then
        if 0 < context.iterationCount then
          match deductCredit o.creditRecord with
          | Except.ok record => creditsRemaining record
          | Except.error _ => creditsRemaining o.creditRecord
        else creditsRemaining o.creditRecord
      else 3
    let canEmail := optTruthy env.RESEND_API_KEY && optTruthy env.NOTIFY_EMAIL &&
      optTruthy env.FROM_EMAIL
    let teamEmailSent := canEmail && o.teamEmailOk
    let clientEmailSent := canEmail && (if strTruthy email then o.clientEmailOk else true)
    Except.ok
      { teamEmailSent := teamEmailSent
        clientEmailSent := clientEmailSent
        creditsRemaining := remaining
        siteUrl := siteUrl
        edge := "done" }

/- ─── Main loop (graph-executor.ts, executeGraph) ─── -/

/-- The `while (state.currentNode !== "deliver" && state.status === "running")`
loop, with explicit fuel.  The third component accumulates the snapshots
handed to `saveSession` (only when a store is configured).  `none` means
the loop did not exit within the fuel. -/
def graphLoop (env : GraphEnv) (o : Oracle) :
    ℕ → ExecutionState → List ExecutionState →
    Option (Except String Unit × ExecutionState × List ExecutionState)
  | 0, st, svs =>
    if st.currentNode = NodeId.deliver ∨ ¬ st.status = SessionStatus.running then
      some (Except.ok (), st, svs)
    else none
  | fuel + 1, st, svs =>
    if st.currentNode = NodeId.deliver ∨ ¬ st.status = SessionStatus.running then
      some (Except.ok (), st, svs)
    else
      match executeNode st.currentNode st.context env o with
      | (ctx2, Except.error e) => some (Except.error e, { st with context := ctx2 }, svs)
      | (ctx2, Except.ok step) =>
        let st2 : ExecutionState :=
          { st with
            context := applyOutput ctx2 st.currentNode step.output
            history := st.history ++ [⟨st.currentNode, step.nextNode, step.edge⟩]
            currentNode := step.nextNode }
        graphLoop env o fuel st2 (if env.kvConfigured then svs ++ [st2] else svs)

/-- `buildResult` (graph-executor.ts): the summary returned to the caller
(`|| undefined` maps an empty deployment URL to absent). -/
def buildResult (state : ExecutionState) : GraphResult :=
  { sessionId := state.sessionId
    status := state.status
    enhancement := state.context.enhancement
    validationScore := state.context.validation.map (fun v => v.overallScore)
    creditsRemaining := state.context.delivery.map (fun d => d.creditsRemaining)
    siteUrl :=
      match state.context.deployment with
      | some d => if d.deploymentUrl == "" then none else some d.deploymentUrl
      | none => none
    history := state.history }

/-- Full outcome of one `executeGraph` call: the returned value or the
re-raised exception, the final (mutated) execution state, and the ordered
snapshots handed to `saveSession`. -/
structure RunOutcome where
  result : Except String GraphResult
  final : ExecutionState
  saves : List ExecutionState
deriving Repr

/-- `executeGraph`: the try block (traversal loop, then the deliver node,
completion, persist, `buildResult`) and the catch block (mark failed,
record the message, best-effort persist, re-raise). -/
def executeGraph (fuel : ℕ) (state : ExecutionState) (env : GraphEnv) (o : Oracle) :
    Option RunOutcome :=
  match graphLoop env o fuel state [] with
  | none => none
  | some (Except.error e, st, svs) =>
    let stF : ExecutionState := { st with status := SessionStatus.failed, error := some e }
    some { result := Except.error e, final := stF
           saves := if env.kvConfigured then svs ++ [stF] else svs }
  | some (Except.ok _, st, svs) =>
    match executeDeliverNode st.context env o with
    | Except.error e =>
      let stF : ExecutionState := { st with status := SessionStatus.failed, error := some e }
      some { result := Except.error e, final := stF
             saves := if env.kvConfigured then svs ++ [stF] else svs }
    | Except.ok deliverOutput =>
      let st1 : ExecutionState :=
        { st with
          history := st.history ++ [⟨NodeId.deliver, NodeId.deliver, "done"⟩]
          context := { st.context with delivery := some deliverOutput }
          status := SessionStatus.completed }
      some { result := Except.ok (buildResult st1), final := st1
             saves := if env.kvConfigured then svs ++ [st1] else svs }

/- ─── Spec-side eligibility criteria (§4.2/§4.3 of the specification),
   written positively and independently of the accumulation logic of
   `evaluateSanityCheck`, to be compared with it. ─── -/

/-- Spec criterion: at least 3 structured sections in the site spec. -/
def sectionsCriterion (context : SessionContext) : Bool :=
  match context.enhancement with
  | none => false
  | some e => decide (MIN_SECTIONS ≤ e.siteSpec.sections.length)

/-- Spec criterion: non-empty (after trimming) headline and subheadline. -/
def headlineCriterion (context : SessionContext) : Bool :=
  match context.enhancement with
  | none => false
  | some e => !(e.siteSpec.headline.trim == "") && !(e.siteSpec.subheadline.trim == "")

/-- Spec criterion: the recorded quality review (when present) scored at
least 6. -/
def scoreCriterion (context : SessionContext) : Bool :=
  match context.validation with
  | none => true
  | some v => decide (SANITY_SCORE_THRESHOLD ≤ v.overallScore)

/-- Spec criterion: a recognized style preset token. -/
def presetCriterion (context : SessionContext) : Bool :=
  VALID_PRESETS.contains context.intakeData.style.stylePreset

/-- Spec criterion: when the preset is "custom", both custom colors are
valid `#RRGGBB` hex values. -/
def customColorsCriterion (context : SessionContext) : Bool :=
  if context.intakeData.style.stylePreset == "custom" then
    hexColorOk context.intakeData.style.primaryColor &&
      hexColorOk context.intakeData.style.secondaryColor
  else true

/-- Spec criterion: a non-empty identifying business name. -/
def nameCriterion (context : SessionContext) : Bool :=
  !(context.intakeData.business.businessName.trim == "")

/- ─── Concrete sample data (used by the witnesses) ─── -/

def sampleIntake : ProjectIntakeData :=
  { business :=
      { businessName := "Sunrise Bakery", businessType := "bakery"
        industry := "food", website := "" }
    project :=
      { description := "a bakery site", goals := "sell bread"
        callToAction := "visit us", content := "", imageNotes := "" }
    style :=
      { stylePreset := "warm", primaryColor := "#112233", secondaryColor := "#445566"
        styleNotes := "", inspirationUrls := "" }
    contact :=
      { name := "Ana", email := "ana@example.com", phone := ""
        preferredContact := "email", additionalNotes := "" } }

def sampleSpec : SiteSpec :=
  { headline := "Fresh bread daily"
    subheadline := "Baked every morning"
    seoDescription := "bakery"
    sections :=
      [ { sectionName := "Hero", purpose := "hook", suggestedContent := "c1" }
      , { sectionName := "About", purpose := "trust", suggestedContent := "c2" }
      , { sectionName := "Contact", purpose := "action", suggestedContent := "c3" } ] }

def sampleGenerate : GenerateOutput :=
  { refinedBrief := "polished brief", siteSpec := sampleSpec, edge := "generated" }

def sampleAssess : AssessOutput :=
  { qualityScore := 8, missingElements := [], qualityNotes := "fine", edge := "proceed" }

def sampleValidate : ValidateOutput :=
  { scores := { clarity := 8, completeness := 8, ctaStrength := 8, sectionFlow := 8 }
    overallScore := 0, critique := "", suggestions := [], edge := "passes" }

def sampleBuild : BuildOutput :=
  { html := "<!DOCTYPE html><html><body>x</body></html>", buildNotes := "ok", edge := "built" }

def sampleBuildValidate : BuildValidateOutput :=
  { scores := { structuralIntegrity := 8, responsiveness := 8
                accessibility := 8, brandAlignment := 8 }
    overallScore := 0, issues := [], edge := "html_passes" }

def sampleContext : SessionContext :=
  { intakeData := sampleIntake, plainText := "brief text"
    assessment := none, enhancement := none, validation := none, sanityCheck := none
    build := none, buildValidation := none, deployment := none, delivery := none
    generateAttempts := 0, iterationCount := 0 }

def sampleEnv : GraphEnv :=
  { ANTHROPIC_API_KEY := "key", RESEND_API_KEY := none, NOTIFY_EMAIL := none
    FROM_EMAIL := none, kvConfigured := true
    CLOUDFLARE_API_TOKEN := none, CLOUDFLARE_ACCOUNT_ID := none }

def sampleCredit : CreditRecord :=
  { email := "ana@example.com", total := 3, used := 1, plan := "standard" }

def sampleOracle : Oracle :=
  { assess := Except.ok sampleAssess
    generate := fun _ => Except.ok sampleGenerate
    validate := fun _ => Except.ok sampleValidate
    build := Except.ok sampleBuild
    buildValidate := Except.ok sampleBuildValidate
    deploy := Except.error "Wrangler deploy failed"
    creditRecord := sampleCredit
    teamEmailOk := true, clientEmailOk := true }

/-- Oracle whose assess call throws (for the failure-path witness). -/
def sampleFailOracle : Oracle :=
  { sampleOracle with assess := Except.error "Anthropic API error 500: boom" }

def sampleState : ExecutionState :=
  { sessionId := "s1", currentNode := NodeId.assess, context := sampleContext
    history := [], status := SessionStatus.running, error := none }

/-- State already at the deploy node, with the generate output in place. -/
def sampleDeployState : ExecutionState :=
  { sampleState with
    currentNode := NodeId.deploy
    context := { sampleContext with enhancement := some sampleGenerate } }

/- ─── Basic helper lemmas ─── -/

lemma stringMk_length (l : List Char) : (String.mk l).length = l.length := rfl

lemma getLast?_append_singleton {α : Type} (l : List α) (a : α) :
    (l ++ [a]).getLast? = some a := by
  induction l with
  | nil => rfl
  | cons b t ih => rw [List.cons_append, List.getLast?_cons, ih]; rfl

lemma collapseGo_all_bad (l : List Char) (h : ∀ c ∈ l, isSlugChar c = false) :
    collapseGo l true = [] := by
  induction l with
  | nil => rfl
  | cons c t ih =>
    have hc := h c (List.mem_cons_self c t)
    simp only [collapseGo, hc, Bool.false_eq_true, if_false, if_true]
    exact ih (fun d hd => h d (List.mem_cons_of_mem c hd))

instance exceptDecEq {ε α : Type} [DecidableEq ε] [DecidableEq α] :
    DecidableEq (Except ε α) := fun x y =>
  match x, y with
  | Except.error a, Except.error b =>
    if h : a = b then Decidable.isTrue (by rw [h])
    else Decidable.isFalse (fun hh => by cases hh; exact h rfl)
  | Except.error _, Except.ok _ => Decidable.isFalse (fun hh => nomatch hh)
  | Except.ok _, Except.error _ => Decidable.isFalse (fun hh => nomatch hh)
  | Except.ok a, Except.ok b =>
    if h : a = b then Decidable.isTrue (by rw [h])
    else Decidable.isFalse (fun hh => by cases hh; exact h rfl)

lemma executeDeliverNode_ok (context : SessionContext) (env : GraphEnv) (o : Oracle)
    (h : context.enhancement.isSome = true) :
    ∃ d, executeDeliverNode context env o = Except.ok d := by
  rcases hget : context.enhancement with _ | e
  · rw [hget] at h; simp at h
  · unfold executeDeliverNode
    rw [hget]
    exact ⟨_, rfl⟩

/- ─── C6 ─── -/

/-- C6: for every successfully decoded quality-review and build-review
response, the parsed `overallScore` equals the arithmetic mean of the four
sub-scores, independently of the self-reported `overallScore` value. -/
theorem parse_recomputes_overall_score (v : ValidateOutput) (b : BuildValidateOutput)
    (x y : ℚ) :
    (parseValidateOutput v).overallScore =
      (v.scores.clarity + v.scores.completeness +
       v.scores.ctaStrength + v.scores.sectionFlow) / 4
    ∧ parseValidateOutput { v with overallScore := x } = parseValidateOutput v
    ∧ (parseBuildValidateOutput b).overallScore =
      (b.scores.structuralIntegrity + b.scores.responsiveness +
       b.scores.accessibility + b.scores.brandAlignment) / 4
    ∧ parseBuildValidateOutput { b with overallScore := y } = parseBuildValidateOutput b :=
  ⟨rfl, rfl, rfl, rfl⟩

/- ─── C8 ─── -/

/-- C8: slug derivation is a pure function whose result never exceeds 58
characters; an empty or all-punctuation display name yields the fixed
fallback token "site". -/
theorem slugify_bounds (s : String) :
    (slugifyProjectName s).length ≤ 58
    ∧ (s.data.all (fun c => !(isSlugChar c.toLower)) = true → slugifyProjectName s = "site")
    ∧ slugifyProjectName "" = "site" := by
  refine ⟨?_, ?_, rfl⟩
  · simp only [slugifyProjectName]
    split
    · decide
    · rw [stringMk_length]
      exact List.length_take_le 58 _
  · intro hall
    have hbad : ∀ c ∈ s.data.map Char.toLower, isSlugChar c = false := by
      intro c hc
      rcases List.mem_map.mp hc with ⟨d, hd, rfl⟩
      have := List.all_eq_true.mp hall d hd
      simpa using this
    simp only [slugifyProjectName]
    rcases hl : s.data.map Char.toLower with _ | ⟨c, t⟩
    · rfl
    · rw [hl] at hbad
      have hc := hbad c (List.mem_cons_self c t)
      have ht : collapseGo t true = [] :=
        collapseGo_all_bad t (fun d hd => hbad d (List.mem_cons_of_mem c hd))
      simp only [collapseRuns, collapseGo, hc, Bool.false_eq_true, if_false, ht]
      rfl

/- ─── C9 ─── -/

/-- C9: credit deduction preserves `used ≤ total`, throws exactly when no
credit remains (leaving the record unchanged), otherwise increments `used`
by one; `creditsRemaining` is never negative; and the delivery stage
completes regardless of a deduction failure. -/
theorem credit_ledger_invariants (r : CreditRecord) (h : r.used ≤ r.total) :
    (r.total - r.used ≤ 0 → deductCredit r = Except.error "No credits remaining")
    ∧ (0 < r.total - r.used →
        deductCredit r = Except.ok { r with used := r.used + 1 } ∧ r.used + 1 ≤ r.total)
    ∧ (∀ r2 : CreditRecord, 0 ≤ creditsRemaining r2)
    ∧ (∀ (context : SessionContext) (env : GraphEnv) (o : Oracle),
        context.enhancement.isSome = true →
        ∃ d, executeDeliverNode context env o = Except.ok d) := by
  refine ⟨?_, ?_, ?_, ?_⟩
  · intro h0
    simp [deductCredit, h0]
  · intro h0
    constructor
    · simp only [deductCredit]
      rw [if_neg (by omega)]
    · omega
  · intro r2
    exact le_max_left 0 _
  · intro context env o hsome
    exact executeDeliverNode_ok context env o hsome

/-- Witness for C9 at the sample record (3 total, 1 used). -/
theorem credit_ledger_invariants_check :
    sampleCredit.used ≤ sampleCredit.total ∧ 0 < sampleCredit.total - sampleCredit.used ∧
    deductCredit sampleCredit = Except.ok { sampleCredit with used := sampleCredit.used + 1 } :=
  ⟨by decide, by decide,
   ((credit_ledger_invariants sampleCredit (by decide)).2.1 (by decide)).1⟩

/- ─── C5 ─── -/

/-- The edge-enforcing update of `parseBuildOutput` leaves `html` alone. -/
lemma parseBuildOutput_enforce_html (parsed0 : BuildOutput) :
    (if parsed0.edge == "built" then parsed0 else { parsed0 with edge := "built" }).html =
      parsed0.html := by
  split <;> rfl

/-- C5: the build node's result carries the success edge "built" (routing
to build review) only when the decoded html contains a document-root
marker; an empty or marker-less html, or a thrown generation call, routes
to deliver with edge "build_failed", without retrying and without
propagating the exception. -/
theorem build_node_degradation (context : SessionContext) (env : GraphEnv) (o : Oracle) :
    (∀ raw output, o.build = Except.ok raw → parseBuildOutput raw = Except.ok output →
      (stringIncludes raw.html "<!DOCTYPE" || stringIncludes raw.html "<html") = true ∧
      executeNode NodeId.build context env o =
        (context, Except.ok { output := NodeOutput.buildOut output
                              nextNode := NodeId.build_validate, edge := "built" }))
    ∧ (∀ raw, o.build = Except.ok raw →
        (raw.html == "" ||
          (!(stringIncludes raw.html "<!DOCTYPE") && !(stringIncludes raw.html "<html"))) = true →
        ∃ fb : BuildOutput, executeNode NodeId.build context env o =
          ({ context with build := some fb },
           Except.ok { output := NodeOutput.buildOut fb
                       nextNode := NodeId.deliver, edge := "build_failed" }))
    ∧ (∀ e, o.build = Except.error e →
        ∃ fb : BuildOutput, executeNode NodeId.build context env o =
          ({ context with build := some fb },
           Except.ok { output := NodeOutput.buildOut fb
                       nextNode := NodeId.deliver, edge := "build_failed" }))
    ∧ (executeNode NodeId.build context env o).2.isOk = true := by
  refine ⟨?_, ?_, ?_, ?_⟩
  · intro raw output hb hp
    constructor
    · simp only [parseBuildOutput, parseBuildOutput_enforce_html] at hp
      split at hp
      · exact nomatch hp
      · rename_i hcond
        revert hcond
        cases hd : stringIncludes raw.html "<!DOCTYPE" <;>
          cases hh : stringIncludes raw.html "<html" <;> simp
    · simp [executeNode, hb, hp]
  · intro raw hb hbad
    refine ⟨{ html := "", buildNotes := "Build failed: Build output missing valid HTML document"
              edge := "built" }, ?_⟩
    have hp : parseBuildOutput raw = Except.error "Build output missing valid HTML document" := by
      simp only [parseBuildOutput, parseBuildOutput_enforce_html]
      split
      · rfl
      · rename_i hcond
        exact absurd hbad hcond
    simp [executeNode, hb, hp]
  · intro e hb
    refine ⟨{ html := "", buildNotes := "Build failed: " ++ e, edge := "built" }, ?_⟩
    simp [executeNode, hb]
  · rcases hb : o.build with e | raw
    · simp [executeNode, hb, Except.isOk, Except.toBool]
    · rcases hp : parseBuildOutput raw with e | output
      · simp [executeNode, hb, hp, Except.isOk, Except.toBool]
      · simp [executeNode, hb, hp, Except.isOk, Except.toBool]

/-- Witness for C5: a well-formed decoded build response carries the
success edge, and its html indeed holds a document-root marker. -/
theorem build_node_degradation_check :
    sampleOracle.build = Except.ok sampleBuild ∧
    parseBuildOutput sampleBuild = Except.ok sampleBuild ∧
    (stringIncludes sampleBuild.html "<!DOCTYPE" || stringIncludes sampleBuild.html "<html") = true :=
  ⟨rfl, by with_unfolding_all decide,
   ((build_node_degradation sampleContext sampleEnv sampleOracle).1 sampleBuild sampleBuild
     rfl (by with_unfolding_all decide)).1⟩

/- ─── C1 ─── -/

/-- C1: the validate node's routing is a pure function of the recomputed
overall score and the attempt counter: score ≥ 7 routes to sanity_check
with edge "passes"; score < 7 with fewer than 2 generate attempts routes
back to generate with edge "needs_revision"; score < 7 with 2 or more
attempts routes to sanity_check with edge "max_retries". -/
theorem validate_node_routing (context : SessionContext) (env : GraphEnv) (o : Oracle)
    (raw : ValidateOutput) (h : o.validate context.generateAttempts = Except.ok raw) :
    (executeNode NodeId.validate context env o).1 = context ∧
    ((7 : ℚ) ≤ (parseValidateOutput raw).overallScore →
      (executeNode NodeId.validate context env o).2 =
        Except.ok { output := NodeOutput.validateOut (parseValidateOutput raw)
                    nextNode := NodeId.sanity_check, edge := "passes" }) ∧
    ((parseValidateOutput raw).overallScore < 7 → context.generateAttempts < 2 →
      (executeNode NodeId.validate context env o).2 =
        Except.ok { output := NodeOutput.validateOut (parseValidateOutput raw)
                    nextNode := NodeId.generate, edge := "needs_revision" }) ∧
    ((parseValidateOutput raw).overallScore < 7 → 2 ≤ context.generateAttempts →
      (executeNode NodeId.validate context env o).2 =
        Except.ok { output := NodeOutput.validateOut (parseValidateOutput raw)
                    nextNode := NodeId.sanity_check, edge := "max_retries" }) := by
  refine ⟨rfl, ?_, ?_, ?_⟩
  · intro h7
    simp [executeNode, h, Except.map, VALIDATE_PASS_THRESHOLD, h7]
  · intro h7 h2
    simp [executeNode, h, Except.map, VALIDATE_PASS_THRESHOLD, MAX_GENERATE_ATTEMPTS,
      not_le.mpr h7, h2]
  · intro h7 h2
    simp [executeNode, h, Except.map, VALIDATE_PASS_THRESHOLD, MAX_GENERATE_ATTEMPTS,
      not_le.mpr h7, not_lt.mpr h2]

/-- Witness for C1: the sample review scores 8, so the sample context
(0 attempts) routes to the eligibility gate with edge "passes". -/
theorem validate_node_routing_check :
    sampleOracle.validate sampleContext.generateAttempts = Except.ok sampleValidate ∧
    (7 : ℚ) ≤ (parseValidateOutput sampleValidate).overallScore ∧
    (executeNode NodeId.validate sampleContext sampleEnv sampleOracle).2 =
      Except.ok { output := NodeOutput.validateOut (parseValidateOutput sampleValidate)
                  nextNode := NodeId.sanity_check, edge := "passes" } :=
  ⟨rfl, by with_unfolding_all decide,
   (validate_node_routing sampleContext sampleEnv sampleOracle sampleValidate rfl).2.1
     (by with_unfolding_all decide)⟩

/- ─── C3: bridge lemmas between the source checks and the spec-side
   criteria ─── -/

lemma sanityFailSections_eq (context : SessionContext) :
    sanityFailSections context = !(sectionsCriterion context) := by
  unfold sanityFailSections sectionsCriterion
  cases context.enhancement with
  | none => rfl
  | some e =>
    dsimp only
    rcases Nat.lt_or_ge e.siteSpec.sections.length MIN_SECTIONS with h | h
    · rw [decide_eq_true h, decide_eq_false (by omega)]
      rfl
    · rw [decide_eq_false (by omega), decide_eq_true h]
      rfl

lemma sanityFailHeadline_eq (context : SessionContext) :
    sanityFailHeadline context = !(headlineCriterion context) := by
  unfold sanityFailHeadline headlineCriterion
  cases context.enhancement with
  | none => rfl
  | some e =>
    cases h1 : e.siteSpec.headline.trim == "" <;>
      cases h2 : e.siteSpec.subheadline.trim == "" <;> simp [h1, h2]

lemma sanityFailScore_eq (context : SessionContext) :
    sanityFailScore context = !(scoreCriterion context) := by
  unfold sanityFailScore scoreCriterion
  cases context.validation with
  | none => rfl
  | some v =>
    dsimp only
    rcases lt_or_le v.overallScore SANITY_SCORE_THRESHOLD with h | h
    · rw [decide_eq_true h, decide_eq_false (not_le.mpr h)]
      rfl
    · rw [decide_eq_false (not_lt.mpr h), decide_eq_true h]
      rfl

lemma sanityFailPreset_eq (context : SessionContext) :
    sanityFailPreset context = !(presetCriterion context) := rfl

lemma sanityFailCustomColors_eq (context : SessionContext) :
    sanityFailCustomColors context = !(customColorsCriterion context) := by
  unfold sanityFailCustomColors customColorsCriterion
  cases hb : context.intakeData.style.stylePreset == "custom" <;>
    cases hp : hexColorOk context.intakeData.style.primaryColor <;>
    cases hs : hexColorOk context.intakeData.style.secondaryColor <;>
    simp [hb, hp, hs]

lemma sanityFailName_eq (context : SessionContext) :
    sanityFailName context = !(nameCriterion context) := by
  unfold sanityFailName nameCriterion
  cases h : context.intakeData.business.businessName.trim == "" <;> simp [h]

/-- C3: the procedural eligibility gate qualifies exactly when every
criterion passes, accumulates one human-readable reason per failing
criterion without short-circuiting (plus a single affirming reason when
all pass), and the engine routes qualifies to build with edge
"auto_build" and disqualification to deliver with edge "skip_build". -/
theorem sanity_gate_spec (context : SessionContext) (env : GraphEnv) (o : Oracle) :
    (evaluateSanityCheck context).qualifies =
      (sectionsCriterion context && headlineCriterion context && scoreCriterion context &&
       presetCriterion context && customColorsCriterion context && nameCriterion context)
    ∧ (evaluateSanityCheck context).edge =
        (if (evaluateSanityCheck context).qualifies then "auto_build" else "skip_build")
    ∧ (evaluateSanityCheck context).reasons.length =
        ((if sectionsCriterion context then 0 else 1) +
         (if headlineCriterion context then 0 else 1) +
         (if scoreCriterion context then 0 else 1) +
         (if presetCriterion context then 0 else 1) +
         (if customColorsCriterion context then 0 else 1) +
         (if nameCriterion context then 0 else 1) +
         (if (evaluateSanityCheck context).qualifies then 1 else 0))
    ∧ ((evaluateSanityCheck context).qualifies = true →
        (evaluateSanityCheck context).reasons = ["All criteria met for auto-build"])
    ∧ executeNode NodeId.sanity_check context env o =
        (context, Except.ok
          { output := NodeOutput.sanityOut (evaluateSanityCheck context)
            nextNode := if (evaluateSanityCheck context).qualifies then NodeId.build
                        else NodeId.deliver
            edge := (evaluateSanityCheck context).edge }) := by
  have e1 := sanityFailSections_eq context
  have e2 := sanityFailHeadline_eq context
  have e3 := sanityFailScore_eq context
  have e4 := sanityFailPreset_eq context
  have e5 := sanityFailCustomColors_eq context
  have e6 := sanityFailName_eq context
  refine ⟨?_, ?_, ?_, ?_, ?_⟩
  · simp only [evaluateSanityCheck, e1, e2, e3, e4, e5, e6]
    cases sectionsCriterion context <;> cases headlineCriterion context <;>
      cases scoreCriterion context <;> cases presetCriterion context <;>
      cases customColorsCriterion context <;> cases nameCriterion context <;> rfl
  · simp only [evaluateSanityCheck]
  · simp only [evaluateSanityCheck, e1, e2, e3, e4, e5, e6]
    cases sectionsCriterion context <;> cases headlineCriterion context <;>
      cases scoreCriterion context <;> cases presetCriterion context <;>
      cases customColorsCriterion context <;> cases nameCriterion context <;> rfl
  · simp only [evaluateSanityCheck, e1, e2, e3, e4, e5, e6]
    cases sectionsCriterion context <;> cases headlineCriterion context <;>
      cases scoreCriterion context <;> cases presetCriterion context <;>
      cases customColorsCriterion context <;> cases nameCriterion context <;> simp
  · simp only [executeNode]

/-- Witness for C3: the hypothesis-bearing conjunct at a qualifying
context (all six criteria hold on the sample data). -/
theorem sanity_gate_spec_check :
    (evaluateSanityCheck { sampleContext with enhancement := some sampleGenerate }).qualifies = true ∧
    (evaluateSanityCheck { sampleContext with enhancement := some sampleGenerate }).reasons =
      ["All criteria met for auto-build"] :=
  ⟨by with_unfolding_all decide,
   (sanity_gate_spec { sampleContext with enhancement := some sampleGenerate }
     sampleEnv sampleOracle).2.2.2.1 (by with_unfolding_all decide)⟩

/- ─── Engine lemmas ─── -/

/-- The loop returns immediately once the current node is `deliver`. -/
lemma graphLoop_exit (env : GraphEnv) (o : Oracle) (fuel : ℕ) (st : ExecutionState)
    (svs : List ExecutionState) (hd : st.currentNode = NodeId.deliver) :
    graphLoop env o fuel st svs = some (Except.ok (), st, svs) := by
  cases fuel <;> simp [graphLoop, hd]

/-- The catch block of `executeGraph`: a loop exception makes the run
fail, records the message, best-effort persists and re-raises. -/
lemma executeGraph_error_outcome (fuel : ℕ) (st : ExecutionState) (env : GraphEnv)
    (o : Oracle) (e : String) (stL : ExecutionState) (svs : List ExecutionState)
    (hloop : graphLoop env o fuel st [] = some (Except.error e, stL, svs)) :
    ∃ out, executeGraph fuel st env o = some out ∧ out.result = Except.error e ∧
      out.final.status = SessionStatus.failed ∧ out.final.error = some e ∧
      (env.kvConfigured = true → out.saves.getLast? = some out.final) := by
  have hrun : executeGraph fuel st env o = some
      { result := Except.error e
        final := { stL with status := SessionStatus.failed, error := some e }
        saves := if env.kvConfigured then
            svs ++ [{ stL with status := SessionStatus.failed, error := some e }]
          else svs } := by
    unfold executeGraph
    rw [hloop]
  refine ⟨_, hrun, rfl, rfl, rfl, ?_⟩
  intro hkv
  show (if env.kvConfigured = true then svs ++ [_] else svs).getLast? = _
  rw [hkv, if_pos rfl]
  exact getLast?_append_singleton _ _

/-- `applyOutput` touches the enhancement slot only at the generate node. -/
lemma applyOutput_enhancement_ne (context : SessionContext) (nodeId : NodeId)
    (output : NodeOutput) (h : ¬ nodeId = NodeId.generate) :
    (applyOutput context nodeId output).enhancement = context.enhancement := by
  cases nodeId <;> cases output <;> first | exact absurd rfl h | rfl

/-- No node's in-place context mutation touches the enhancement slot. -/
lemma executeNode_context_enhancement (nodeId : NodeId) (context : SessionContext)
    (env : GraphEnv) (o : Oracle) :
    ((executeNode nodeId context env o).1).enhancement = context.enhancement := by
  cases nodeId with
  | build =>
    simp only [executeNode]
    split
    · rfl
    · split <;> rfl
  | deploy =>
    simp only [executeNode]
    split
    · rfl
    · split <;> rfl
  | assess => rfl
  | generate => rfl
  | validate => rfl
  | sanity_check => rfl
  | build_validate =>
    simp only [executeNode]
    split
    · rfl
    · split <;> rfl
  | deliver => rfl

/-- A successful assess step always routes to generate. -/
lemma executeNode_assess_ok (context : SessionContext) (env : GraphEnv) (o : Oracle)
    (step : StepResult) (h : (executeNode NodeId.assess context env o).2 = Except.ok step) :
    step.nextNode = NodeId.generate := by
  rcases ha : o.assess with e | a
  · simp [executeNode, ha, Except.map] at h
  · simp [executeNode, ha, Except.map] at h
    rw [← h]

/-- A successful generate step carries a generate output. -/
lemma executeNode_generate_ok (context : SessionContext) (env : GraphEnv) (o : Oracle)
    (step : StepResult)
    (h : (executeNode NodeId.generate context env o).2 = Except.ok step) :
    ∃ g, step.output = NodeOutput.generateOut g := by
  rcases hg : o.generate (context.generateAttempts + 1) with e | g
  · simp [executeNode, hg, Except.map] at h
  · simp [executeNode, hg, Except.map] at h
    exact ⟨parseGenerateOutput g, by rw [← h]⟩

/-- One successful step of a non-generate node preserves the enhancement
slot of the context. -/
lemma step_preserves_enhancement (st : ExecutionState) (env : GraphEnv) (o : Oracle)
    (ctx2 : SessionContext) (step : StepResult) (hne : ¬ st.currentNode = NodeId.generate)
    (heq : executeNode st.currentNode st.context env o = (ctx2, Except.ok step)) :
    (applyOutput ctx2 st.currentNode step.output).enhancement = st.context.enhancement := by
  rw [applyOutput_enhancement_ne _ _ _ hne]
  rw [show ctx2 = (executeNode st.currentNode st.context env o).1 from
    (congrArg Prod.fst heq).symm]
  exact executeNode_context_enhancement _ _ _ _

/-- Loop invariant: once the generate node has run (and it must run before
any later node), the enhancement slot stays populated; a normal loop exit
from the assess entry therefore carries a populated enhancement slot. -/
lemma graphLoop_preserves_enhancement (env : GraphEnv) (o : Oracle) :
    ∀ (fuel : ℕ) (st : ExecutionState) (svs : List ExecutionState)
      (st2 : ExecutionState) (svs2 : List ExecutionState),
      st.status = SessionStatus.running →
      (st.context.enhancement.isSome = true ∨ st.currentNode = NodeId.assess ∨
        st.currentNode = NodeId.generate) →
      graphLoop env o fuel st svs = some (Except.ok (), st2, svs2) →
      st2.context.enhancement.isSome = true := by
  intro fuel
  induction fuel with
  | zero =>
    intro st svs st2 svs2 hs hinv hloop
    simp only [graphLoop] at hloop
    split at hloop
    · rename_i hguard
      simp only [Option.some.injEq, Prod.mk.injEq] at hloop
      obtain ⟨-, h2, -⟩ := hloop
      subst h2
      rcases hguard with hd | hns
      · rcases hinv with hi | hA | hG
        · exact hi
        · rw [hA] at hd; exact nomatch hd
        · rw [hG] at hd; exact nomatch hd
      · exact absurd hs hns
    · exact nomatch hloop
  | succ fuel ih =>
    intro st svs st2 svs2 hs hinv hloop
    simp only [graphLoop] at hloop
    split at hloop
    · rename_i hguard
      simp only [Option.some.injEq, Prod.mk.injEq] at hloop
      obtain ⟨-, h2, -⟩ := hloop
      subst h2
      rcases hguard with hd | hns
      · rcases hinv with hi | hA | hG
        · exact hi
        · rw [hA] at hd; exact nomatch hd
        · rw [hG] at hd; exact nomatch hd
      · exact absurd hs hns
    · rename_i hguard
      split at hloop
      · simp at hloop
      · rename_i ctx2 step heq
        refine ih _ _ _ _ (by exact hs) ?_ hloop
        have hother : ∀ hnode2 : ¬ st.currentNode = NodeId.generate,
            st.context.enhancement.isSome = true →
            (applyOutput ctx2 st.currentNode step.output).enhancement.isSome = true := by
          intro hnode2 hi
          rw [step_preserves_enhancement st env o ctx2 step hnode2 heq]
          exact hi
        rcases hnode : st.currentNode with _ | _ | _ | _ | _ | _ | _ | _
        · -- assess: the next node is generate
          right; right
          show step.nextNode = NodeId.generate
          rw [hnode] at heq
          exact executeNode_assess_ok _ env o step (congrArg Prod.snd heq)
        · -- generate: the output populates the enhancement slot
          left
          rw [hnode] at heq
          rcases executeNode_generate_ok _ env o step (congrArg Prod.snd heq) with ⟨g, hout⟩
          show (applyOutput ctx2 NodeId.generate step.output).enhancement.isSome = true
          rw [hout]
          rfl
        · -- validate
          rcases hinv with hi | hA | hG
          · left
            show (applyOutput ctx2 NodeId.validate step.output).enhancement.isSome = true
            rw [← hnode]
            exact hother (by rw [hnode]; simp) hi
          · rw [hnode] at hA; exact nomatch hA
          · rw [hnode] at hG; exact nomatch hG
        · -- sanity_check
          rcases hinv with hi | hA | hG
          · left
            show (applyOutput ctx2 NodeId.sanity_check step.output).enhancement.isSome = true
            rw [← hnode]
            exact hother (by rw [hnode]; simp) hi
          · rw [hnode] at hA; exact nomatch hA
          · rw [hnode] at hG; exact nomatch hG
        · -- build
          rcases hinv with hi | hA | hG
          · left
            show (applyOutput ctx2 NodeId.build step.output).enhancement.isSome = true
            rw [← hnode]
            exact hother (by rw [hnode]; simp) hi
          · rw [hnode] at hA; exact nomatch hA
          · rw [hnode] at hG; exact nomatch hG
        · -- build_validate
          rcases hinv with hi | hA | hG
          · left
            show (applyOutput ctx2 NodeId.build_validate step.output).enhancement.isSome = true
            rw [← hnode]
            exact hother (by rw [hnode]; simp) hi
          · rw [hnode] at hA; exact nomatch hA
          · rw [hnode] at hG; exact nomatch hG
        · -- deploy
          rcases hinv with hi | hA | hG
          · left
            show (applyOutput ctx2 NodeId.deploy step.output).enhancement.isSome = true
            rw [← hnode]
            exact hother (by rw [hnode]; simp) hi
          · rw [hnode] at hA; exact nomatch hA
          · rw [hnode] at hG; exact nomatch hG
        · -- deliver: excluded by the loop guard
          exact absurd (Or.inl hnode) hguard

/- ─── C4 ─── -/

/-- C4: any stage exception that reaches the engine loop marks the run
failed, records the error message, best-effort persists the failed state
when a store is configured, and re-raises the same exception to the
caller; in particular a thrown assess call fails the whole run without
any retry. -/
theorem run_failure_semantics (fuel : ℕ) (st : ExecutionState) (env : GraphEnv)
    (o : Oracle) :
    (∀ e stL svs, graphLoop env o fuel st [] = some (Except.error e, stL, svs) →
      ∃ out, executeGraph fuel st env o = some out ∧ out.result = Except.error e ∧
        out.final.status = SessionStatus.failed ∧ out.final.error = some e ∧
        (env.kvConfigured = true → out.saves.getLast? = some out.final))
    ∧ (∀ e, st.currentNode = NodeId.assess → st.status = SessionStatus.running →
        o.assess = Except.error e →
        ∃ out, executeGraph (fuel + 1) st env o = some out ∧ out.result = Except.error e ∧
          out.final.status = SessionStatus.failed ∧ out.final.error = some e ∧
          (env.kvConfigured = true → out.saves.getLast? = some out.final)) := by
  constructor
  · intro e stL svs hloop
    exact executeGraph_error_outcome fuel st env o e stL svs hloop
  · intro e hn hs ha
    obtain ⟨sid, cn, ctx, hist, stat, err⟩ := st
    simp only at hn hs
    subst hn
    subst hs
    have hloop : graphLoop env o (fuel + 1)
        ⟨sid, NodeId.assess, ctx, hist, SessionStatus.running, err⟩ [] =
        some (Except.error e,
          ⟨sid, NodeId.assess, ctx, hist, SessionStatus.running, err⟩, []) := by
      simp [graphLoop, executeNode, ha, Except.map]
    exact executeGraph_error_outcome (fuel + 1) _ env o e _ [] hloop

/-- Witness for C4: the sample run whose assess call throws fails with
the same message and persists the failed snapshot last. -/
theorem run_failure_semantics_check :
    sampleState.currentNode = NodeId.assess ∧ sampleState.status = SessionStatus.running ∧
    sampleFailOracle.assess = Except.error "Anthropic API error 500: boom" ∧
    ∃ out, executeGraph 1 sampleState sampleEnv sampleFailOracle = some out ∧
      out.result = Except.error "Anthropic API error 500: boom" ∧
      out.final.status = SessionStatus.failed ∧
      out.final.error = some "Anthropic API error 500: boom" ∧
      (sampleEnv.kvConfigured = true → out.saves.getLast? = some out.final) :=
  ⟨rfl, rfl, rfl,
   (run_failure_semantics 0 sampleState sampleEnv sampleFailOracle).2
     "Anthropic API error 500: boom" rfl rfl rfl⟩

/- ─── C10 ─── -/

/-- C10: called directly on a context with no enhancement output, the
deliver node throws its internal guard error; but in an engine run
started at the assess entry every normal loop exit (which is how
`executeGraph` reaches the deliver call) carries a populated enhancement
slot, so that error branch is unreachable from `executeGraph`. -/
theorem deliver_guard_unreachable :
    (∀ (context : SessionContext) (env : GraphEnv) (o : Oracle),
      context.enhancement = none →
      executeDeliverNode context env o =
        Except.error "Cannot deliver: no enhancement output from generate node")
    ∧ (∀ (env : GraphEnv) (o : Oracle) (fuel : ℕ) (st st2 : ExecutionState)
        (svs svs2 : List ExecutionState),
        st.currentNode = NodeId.assess → st.status = SessionStatus.running →
        graphLoop env o fuel st svs = some (Except.ok (), st2, svs2) →
        st2.context.enhancement.isSome = true) := by
  constructor
  · intro context env o hnone
    unfold executeDeliverNode
    rw [hnone]
  · intro env o fuel st st2 svs svs2 hn hs hloop
    exact graphLoop_preserves_enhancement env o fuel st svs st2 svs2 hs
      (Or.inr (Or.inl hn)) hloop

/-- Witness for C10: the direct call on the sample context (no
enhancement) throws the guard error. -/
theorem deliver_guard_unreachable_check :
    sampleContext.enhancement = none ∧
    executeDeliverNode sampleContext sampleEnv sampleOracle =
      Except.error "Cannot deliver: no enhancement output from generate node" :=
  ⟨rfl, deliver_guard_unreachable.1 sampleContext sampleEnv sampleOracle rfl⟩

/-- Witness for C8: an all-punctuation name falls back to "site". -/
theorem slugify_bounds_check :
    ("!!!".data.all (fun c => !(isSlugChar c.toLower)) = true) ∧
    slugifyProjectName "!!!" = "site" :=
  ⟨by decide, (slugify_bounds "!!!").2.1 (by decide)⟩

/- ─── Termination machinery: LoopOk ─── -/

/-- The traversal loop, run with this much fuel, exits normally with a
populated enhancement slot. -/
def LoopOk (env : GraphEnv) (o : Oracle) (fuel : ℕ) (st : ExecutionState) : Prop :=
  ∀ svs, ∃ st2 svs2, graphLoop env o fuel st svs = some (Except.ok (), st2, svs2) ∧
    st2.context.enhancement.isSome = true

lemma loopOk_exit (env : GraphEnv) (o : Oracle) (fuel : ℕ) (st : ExecutionState)
    (hn : st.currentNode = NodeId.deliver) (he : st.context.enhancement.isSome = true) :
    LoopOk env o fuel st := by
  intro svs
  exact ⟨st, svs, graphLoop_exit env o fuel st svs hn, he⟩

lemma loopOk_step (env : GraphEnv) (o : Oracle) (fuel : ℕ) (st : ExecutionState)
    (hn : ¬ st.currentNode = NodeId.deliver) (hs : st.status = SessionStatus.running)
    (ctx2 : SessionContext) (step : StepResult)
    (heq : executeNode st.currentNode st.context env o = (ctx2, Except.ok step))
    (ih : LoopOk env o fuel
      { st with
        context := applyOutput ctx2 st.currentNode step.output
        history := st.history ++ [⟨st.currentNode, step.nextNode, step.edge⟩]
        currentNode := step.nextNode }) :
    LoopOk env o (fuel + 1) st := by
  intro svs
  rcases ih (if env.kvConfigured then svs ++ [{ st with
      context := applyOutput ctx2 st.currentNode step.output
      history := st.history ++ [⟨st.currentNode, step.nextNode, step.edge⟩]
      currentNode := step.nextNode }] else svs) with ⟨st2, svs2, hl, he⟩
  refine ⟨st2, svs2, ?_, he⟩
  have hg : ¬(st.currentNode = NodeId.deliver ∨ ¬ st.status = SessionStatus.running) := by
    simp [hn, hs]
  simp only [graphLoop]
  rw [if_neg hg, heq]
  exact hl

lemma loopOk_from_deploy (env : GraphEnv) (o : Oracle) (k : ℕ) (st : ExecutionState)
    (hn : st.currentNode = NodeId.deploy) (hs : st.status = SessionStatus.running)
    (he : st.context.enhancement.isSome = true) : LoopOk env o (k + 1) st := by
  have hnd : ¬ st.currentNode = NodeId.deliver := by rw [hn]; simp
  have hng : ¬ st.currentNode = NodeId.generate := by rw [hn]; simp
  obtain ⟨ctx2, step, heq, hnext⟩ :
      ∃ ctx2 step, executeNode st.currentNode st.context env o = (ctx2, Except.ok step) ∧
        step.nextNode = NodeId.deliver := by
    rw [hn]
    by_cases hc : (!(optTruthy env.CLOUDFLARE_API_TOKEN) ||
        !(optTruthy env.CLOUDFLARE_ACCOUNT_ID)) = true
    · refine ⟨st.context,
        { output := NodeOutput.deployOut
            { projectName := "", deploymentUrl := "", deploymentId := "", edge := "deployed" }
          nextNode := NodeId.deliver, edge := "deploy_failed" }, ?_, rfl⟩
      simp [executeNode, hc]
    · rcases hd : o.deploy with e | r
      · refine ⟨st.context,
          { output := NodeOutput.deployOut
              { projectName := "", deploymentUrl := "", deploymentId := "", edge := "deployed" }
            nextNode := NodeId.deliver, edge := "deploy_failed" }, ?_, rfl⟩
        simp [executeNode, hc, hd]
      · refine ⟨st.context,
          { output := NodeOutput.deployOut
              { projectName := r.projectName, deploymentUrl := r.deploymentUrl
                deploymentId := r.deploymentId, edge := "deployed" }
            nextNode := NodeId.deliver, edge := "deployed" }, ?_, rfl⟩
        simp [executeNode, hc, hd]
  apply loopOk_step env o k st hnd hs ctx2 step heq
  apply loopOk_exit
  · exact hnext
  · show (applyOutput ctx2 st.currentNode step.output).enhancement.isSome = true
    rw [step_preserves_enhancement st env o ctx2 step hng heq]
    exact he

lemma loopOk_from_build_validate (env : GraphEnv) (o : Oracle) (k : ℕ)
    (st : ExecutionState) (hn : st.currentNode = NodeId.build_validate)
    (hs : st.status = SessionStatus.running)
    (he : st.context.enhancement.isSome = true) : LoopOk env o (k + 2) st := by
  have hnd : ¬ st.currentNode = NodeId.deliver := by rw [hn]; simp
  have hng : ¬ st.currentNode = NodeId.generate := by rw [hn]; simp
  rcases hbv : o.buildValidate with e | raw
  · have heq : executeNode st.currentNode st.context env o =
        (st.context, Except.ok
          { output := NodeOutput.buildValidateOut
              { scores := { structuralIntegrity := 0, responsiveness := 0,
                            accessibility := 0, brandAlignment := 0 }
                overallScore := 0
                issues := ["Validation error: " ++ e]
                edge := "html_fails" }
            nextNode := NodeId.deliver, edge := "html_fails" }) := by
      rw [hn]; simp [executeNode, hbv]
    have h21 : k + 2 = (k + 1) + 1 := rfl
    rw [h21]
    apply loopOk_step env o (k + 1) st hnd hs _ _ heq
    apply loopOk_exit
    · rfl
    · show (applyOutput st.context st.currentNode _).enhancement.isSome = true
      rw [step_preserves_enhancement st env o _ _ hng heq]
      exact he
  · by_cases hsc : BUILD_VALIDATE_THRESHOLD ≤ (parseBuildValidateOutput raw).overallScore
    · have heq : executeNode st.currentNode st.context env o =
          (st.context, Except.ok
            { output := NodeOutput.buildValidateOut (parseBuildValidateOutput raw)
              nextNode := NodeId.deploy, edge := "html_passes" }) := by
        rw [hn]; simp [executeNode, hbv, hsc]
      have h21 : k + 2 = (k + 1) + 1 := rfl
      rw [h21]
      apply loopOk_step env o (k + 1) st hnd hs _ _ heq
      apply loopOk_from_deploy env o k
      · rfl
      · exact hs
      · show (applyOutput st.context st.currentNode _).enhancement.isSome = true
        rw [step_preserves_enhancement st env o _ _ hng heq]
        exact he
    · have heq : executeNode st.currentNode st.context env o =
          (st.context, Except.ok
            { output := NodeOutput.buildValidateOut (parseBuildValidateOutput raw)
              nextNode := NodeId.deliver, edge := "html_fails" }) := by
        rw [hn]; simp [executeNode, hbv, hsc]
      have h21 : k + 2 = (k + 1) + 1 := rfl
      rw [h21]
      apply loopOk_step env o (k + 1) st hnd hs _ _ heq
      apply loopOk_exit
      · rfl
      · show (applyOutput st.context st.currentNode _).enhancement.isSome = true
        rw [step_preserves_enhancement st env o _ _ hng heq]
        exact he

lemma loopOk_from_build (env : GraphEnv) (o : Oracle) (k : ℕ) (st : ExecutionState)
    (hn : st.currentNode = NodeId.build) (hs : st.status = SessionStatus.running)
    (he : st.context.enhancement.isSome = true) : LoopOk env o (k + 3) st := by
  have hnd : ¬ st.currentNode = NodeId.deliver := by rw [hn]; simp
  have hng : ¬ st.currentNode = NodeId.generate := by rw [hn]; simp
  have h32 : k + 3 = (k + 2) + 1 := rfl
  rw [h32]
  rcases hb : o.build with e | raw
  · have heq : executeNode st.currentNode st.context env o =
        ({ st.context with
            build := some { html := "", buildNotes := "Build failed: " ++ e, edge := "built" } },
         Except.ok
          { output := NodeOutput.buildOut
              { html := "", buildNotes := "Build failed: " ++ e, edge := "built" }
            nextNode := NodeId.deliver, edge := "build_failed" }) := by
      rw [hn]; simp [executeNode, hb]
    apply loopOk_step env o (k + 2) st hnd hs _ _ heq
    apply loopOk_exit
    · rfl
    · show (applyOutput _ st.currentNode _).enhancement.isSome = true
      rw [step_preserves_enhancement st env o _ _ hng heq]
      exact he
  · rcases hp : parseBuildOutput raw with e | out
    · have heq : executeNode st.currentNode st.context env o =
          ({ st.context with
              build := some { html := "", buildNotes := "Build failed: " ++ e, edge := "built" } },
           Except.ok
            { output := NodeOutput.buildOut
                { html := "", buildNotes := "Build failed: " ++ e, edge := "built" }
              nextNode := NodeId.deliver, edge := "build_failed" }) := by
        rw [hn]; simp [executeNode, hb, hp]
      apply loopOk_step env o (k + 2) st hnd hs _ _ heq
      apply loopOk_exit
      · rfl
      · show (applyOutput _ st.currentNode _).enhancement.isSome = true
        rw [step_preserves_enhancement st env o _ _ hng heq]
        exact he
    · have heq : executeNode st.currentNode st.context env o =
          (st.context, Except.ok
            { output := NodeOutput.buildOut out
              nextNode := NodeId.build_validate, edge := "built" }) := by
        rw [hn]; simp [executeNode, hb, hp]
      apply loopOk_step env o (k + 2) st hnd hs _ _ heq
      apply loopOk_from_build_validate env o k
      · rfl
      · exact hs
      · show (applyOutput _ st.currentNode _).enhancement.isSome = true
        rw [step_preserves_enhancement st env o _ _ hng heq]
        exact he

lemma loopOk_from_sanity (env : GraphEnv) (o : Oracle) (k : ℕ) (st : ExecutionState)
    (hn : st.currentNode = NodeId.sanity_check) (hs : st.status = SessionStatus.running)
    (he : st.context.enhancement.isSome = true) : LoopOk env o (k + 4) st := by
  have hnd : ¬ st.currentNode = NodeId.deliver := by rw [hn]; simp
  have hng : ¬ st.currentNode = NodeId.generate := by rw [hn]; simp
  have h43 : k + 4 = (k + 3) + 1 := rfl
  rw [h43]
  cases hq : (evaluateSanityCheck st.context).qualifies
  · have heq : executeNode st.currentNode st.context env o =
        (st.context, Except.ok
          { output := NodeOutput.sanityOut (evaluateSanityCheck st.context)
            nextNode := NodeId.deliver, edge := (evaluateSanityCheck st.context).edge }) := by
      rw [hn]; simp [executeNode, hq]
    apply loopOk_step env o (k + 3) st hnd hs _ _ heq
    apply loopOk_exit
    · rfl
    · show (applyOutput _ st.currentNode _).enhancement.isSome = true
      rw [step_preserves_enhancement st env o _ _ hng heq]
      exact he
  · have heq : executeNode st.currentNode st.context env o =
        (st.context, Except.ok
          { output := NodeOutput.sanityOut (evaluateSanityCheck st.context)
            nextNode := NodeId.build, edge := (evaluateSanityCheck st.context).edge }) := by
      rw [hn]; simp [executeNode, hq]
    apply loopOk_step env o (k + 3) st hnd hs _ _ heq
    apply loopOk_from_build env o k
    · rfl
    · exact hs
    · show (applyOutput _ st.currentNode _).enhancement.isSome = true
      rw [step_preserves_enhancement st env o _ _ hng heq]
      exact he

/-- A normal loop exit with a populated enhancement slot makes
`executeGraph` finish the run: deliver succeeds, the status becomes
completed, and the final transition record has edge "done". -/
lemma executeGraph_of_loopOk (env : GraphEnv) (o : Oracle) (fuel : ℕ)
    (st : ExecutionState) (h : LoopOk env o fuel st) :
    ∃ out r, executeGraph fuel st env o = some out ∧ out.result = Except.ok r ∧
      out.final.status = SessionStatus.completed ∧ r.status = SessionStatus.completed ∧
      out.final.history.getLast? = some ⟨NodeId.deliver, NodeId.deliver, "done"⟩ := by
  rcases h [] with ⟨st2, svs2, hl, he⟩
  rcases executeDeliverNode_ok st2.context env o he with ⟨d, hd⟩
  have hrun : executeGraph fuel st env o = some
      { result := Except.ok (buildResult
          { st2 with
            history := st2.history ++ [⟨NodeId.deliver, NodeId.deliver, "done"⟩]
            context := { st2.context with delivery := some d }
            status := SessionStatus.completed })
        final :=
          { st2 with
            history := st2.history ++ [⟨NodeId.deliver, NodeId.deliver, "done"⟩]
            context := { st2.context with delivery := some d }
            status := SessionStatus.completed }
        saves := if env.kvConfigured then svs2 ++
            [{ st2 with
               history := st2.history ++ [⟨NodeId.deliver, NodeId.deliver, "done"⟩]
               context := { st2.context with delivery := some d }
               status := SessionStatus.completed }]
          else svs2 } := by
    unfold executeGraph
    rw [hl]
    dsimp only
    rw [hd]
  refine ⟨_, _, hrun, rfl, rfl, rfl, ?_⟩
  exact getLast?_append_singleton _ _

lemma loopOk_from_validate2 (env : GraphEnv) (o : Oracle) (k : ℕ) (st : ExecutionState)
    (hn : st.currentNode = NodeId.validate) (hs : st.status = SessionStatus.running)
    (he : st.context.enhancement.isSome = true)
    (hat : st.context.generateAttempts = 2)
    (hV : ∀ j, ∃ v, o.validate j = Except.ok v) : LoopOk env o (k + 5) st := by
  have hnd : ¬ st.currentNode = NodeId.deliver := by rw [hn]; simp
  have hng : ¬ st.currentNode = NodeId.generate := by rw [hn]; simp
  have h54 : k + 5 = (k + 4) + 1 := rfl
  rw [h54]
  rcases hV 2 with ⟨v, hv⟩
  have hvv : o.validate st.context.generateAttempts = Except.ok v := by rw [hat]; exact hv
  have hcr : ¬(st.context.generateAttempts < MAX_GENERATE_ATTEMPTS) := by
    rw [hat]; norm_num [MAX_GENERATE_ATTEMPTS]
  by_cases hsc : VALIDATE_PASS_THRESHOLD ≤ (parseValidateOutput v).overallScore
  · have heq : executeNode st.currentNode st.context env o =
        (st.context, Except.ok
          { output := NodeOutput.validateOut (parseValidateOutput v)
            nextNode := NodeId.sanity_check, edge := "passes" }) := by
      rw [hn]; simp [executeNode, hvv, Except.map, hsc]
    apply loopOk_step env o (k + 4) st hnd hs _ _ heq
    apply loopOk_from_sanity env o k
    · rfl
    · exact hs
    · show (applyOutput _ st.currentNode _).enhancement.isSome = true
      rw [step_preserves_enhancement st env o _ _ hng heq]
      exact he
  · have heq : executeNode st.currentNode st.context env o =
        (st.context, Except.ok
          { output := NodeOutput.validateOut (parseValidateOutput v)
            nextNode := NodeId.sanity_check, edge := "max_retries" }) := by
      rw [hn]; simp [executeNode, hvv, Except.map, hsc, hcr]
    apply loopOk_step env o (k + 4) st hnd hs _ _ heq
    apply loopOk_from_sanity env o k
    · rfl
    · exact hs
    · show (applyOutput _ st.currentNode _).enhancement.isSome = true
      rw [step_preserves_enhancement st env o _ _ hng heq]
      exact he

lemma loopOk_from_generate2 (env : GraphEnv) (o : Oracle) (k : ℕ) (st : ExecutionState)
    (hn : st.currentNode = NodeId.generate) (hs : st.status = SessionStatus.running)
    (hat : st.context.generateAttempts = 1)
    (hG : ∀ j, ∃ g, o.generate j = Except.ok g)
    (hV : ∀ j, ∃ v, o.validate j = Except.ok v) : LoopOk env o (k + 6) st := by
  have hnd : ¬ st.currentNode = NodeId.deliver := by rw [hn]; simp
  have h65 : k + 6 = (k + 5) + 1 := rfl
  rw [h65]
  rcases hG (st.context.generateAttempts + 1) with ⟨g, hg⟩
  have heq : executeNode st.currentNode st.context env o =
      ({ st.context with generateAttempts := st.context.generateAttempts + 1 },
       Except.ok
        { output := NodeOutput.generateOut (parseGenerateOutput g)
          nextNode := NodeId.validate, edge := "generated" }) := by
    rw [hn]; simp [executeNode, hg, Except.map]
  apply loopOk_step env o (k + 5) st hnd hs _ _ heq
  apply loopOk_from_validate2 env o k
  · rfl
  · exact hs
  · show (applyOutput _ st.currentNode
      (NodeOutput.generateOut (parseGenerateOutput g))).enhancement.isSome = true
    rw [hn]
    rfl
  · show (applyOutput _ st.currentNode _).generateAttempts = 2
    rw [hn]
    show st.context.generateAttempts + 1 = 2
    rw [hat]
    norm_num
  · exact hV

lemma loopOk_from_validate1 (env : GraphEnv) (o : Oracle) (k : ℕ) (st : ExecutionState)
    (hn : st.currentNode = NodeId.validate) (hs : st.status = SessionStatus.running)
    (he : st.context.enhancement.isSome = true)
    (hat : st.context.generateAttempts = 1)
    (hG : ∀ j, ∃ g, o.generate j = Except.ok g)
    (hV : ∀ j, ∃ v, o.validate j = Except.ok v) : LoopOk env o (k + 7) st := by
  have hnd : ¬ st.currentNode = NodeId.deliver := by rw [hn]; simp
  have hng : ¬ st.currentNode = NodeId.generate := by rw [hn]; simp
  have h76 : k + 7 = (k + 6) + 1 := rfl
  rw [h76]
  rcases hV 1 with ⟨v, hv⟩
  have hvv : o.validate st.context.generateAttempts = Except.ok v := by rw [hat]; exact hv
  have hcr : st.context.generateAttempts < MAX_GENERATE_ATTEMPTS := by
    rw [hat]; norm_num [MAX_GENERATE_ATTEMPTS]
  by_cases hsc : VALIDATE_PASS_THRESHOLD ≤ (parseValidateOutput v).overallScore
  · have heq : executeNode st.currentNode st.context env o =
        (st.context, Except.ok
          { output := NodeOutput.validateOut (parseValidateOutput v)
            nextNode := NodeId.sanity_check, edge := "passes" }) := by
      rw [hn]; simp [executeNode, hvv, Except.map, hsc]
    apply loopOk_step env o (k + 6) st hnd hs _ _ heq
    have h64 : k + 6 = (k + 2) + 4 := by omega
    rw [h64]
    apply loopOk_from_sanity env o (k + 2)
    · rfl
    · exact hs
    · show (applyOutput _ st.currentNode _).enhancement.isSome = true
      rw [step_preserves_enhancement st env o _ _ hng heq]
      exact he
  · have heq : executeNode st.currentNode st.context env o =
        (st.context, Except.ok
          { output := NodeOutput.validateOut (parseValidateOutput v)
            nextNode := NodeId.generate, edge := "needs_revision" }) := by
      rw [hn]; simp [executeNode, hvv, Except.map, hsc, hcr]
    apply loopOk_step env o (k + 6) st hnd hs _ _ heq
    apply loopOk_from_generate2 env o k
    · rfl
    · exact hs
    · show (applyOutput _ st.currentNode _).generateAttempts = 1
      rw [hn]
      show st.context.generateAttempts = 1
      exact hat
    · exact hG
    · exact hV

lemma loopOk_from_generate1 (env : GraphEnv) (o : Oracle) (k : ℕ) (st : ExecutionState)
    (hn : st.currentNode = NodeId.generate) (hs : st.status = SessionStatus.running)
    (hat : st.context.generateAttempts = 0)
    (hG : ∀ j, ∃ g, o.generate j = Except.ok g)
    (hV : ∀ j, ∃ v, o.validate j = Except.ok v) : LoopOk env o (k + 8) st := by
  have hnd : ¬ st.currentNode = NodeId.deliver := by rw [hn]; simp
  have h87 : k + 8 = (k + 7) + 1 := rfl
  rw [h87]
  rcases hG (st.context.generateAttempts + 1) with ⟨g, hg⟩
  have heq : executeNode st.currentNode st.context env o =
      ({ st.context with generateAttempts := st.context.generateAttempts + 1 },
       Except.ok
        { output := NodeOutput.generateOut (parseGenerateOutput g)
          nextNode := NodeId.validate, edge := "generated" }) := by
    rw [hn]; simp [executeNode, hg, Except.map]
  apply loopOk_step env o (k + 7) st hnd hs _ _ heq
  apply loopOk_from_validate1 env o k
  · rfl
  · exact hs
  · show (applyOutput _ st.currentNode
      (NodeOutput.generateOut (parseGenerateOutput g))).enhancement.isSome = true
    rw [hn]
    rfl
  · show (applyOutput _ st.currentNode _).generateAttempts = 1
    rw [hn]
    show st.context.generateAttempts + 1 = 1
    rw [hat]
    norm_num
  · exact hG
  · exact hV

/- ─── C2 ─── -/

/-- C2: from the assess entry (running, zero generate attempts), whenever
the assess, generate and quality-review calls all return decodable
responses, the traversal loop terminates within 9 node executions — the
single backward edge can fire at most once — the run completes, and the
final transition record in the history has edge "done". -/
theorem revision_loop_terminates (st : ExecutionState) (env : GraphEnv) (o : Oracle)
    (hn : st.currentNode = NodeId.assess) (hs : st.status = SessionStatus.running)
    (h0 : st.context.generateAttempts = 0)
    (hA : ∃ a, o.assess = Except.ok a)
    (hG : ∀ j, ∃ g, o.generate j = Except.ok g)
    (hV : ∀ j, ∃ v, o.validate j = Except.ok v) :
    ∃ out r, executeGraph 9 st env o = some out ∧ out.result = Except.ok r ∧
      out.final.status = SessionStatus.completed ∧ r.status = SessionStatus.completed ∧
      out.final.history.getLast? = some ⟨NodeId.deliver, NodeId.deliver, "done"⟩ := by
  apply executeGraph_of_loopOk
  rcases hA with ⟨a, ha⟩
  have hnd : ¬ st.currentNode = NodeId.deliver := by rw [hn]; simp
  have h98 : (9 : ℕ) = 8 + 1 := rfl
  rw [h98]
  have heq : executeNode st.currentNode st.context env o =
      (st.context, Except.ok
        { output := NodeOutput.assessOut (parseAssessOutput a)
          nextNode := NodeId.generate, edge := "proceed" }) := by
    rw [hn]; simp [executeNode, ha, Except.map]
  apply loopOk_step env o 8 st hnd hs _ _ heq
  have h80 : (8 : ℕ) = 0 + 8 := rfl
  rw [h80]
  apply loopOk_from_generate1 env o 0
  · rfl
  · exact hs
  · show (applyOutput _ st.currentNode _).generateAttempts = 0
    rw [hn]
    show st.context.generateAttempts = 0
    exact h0
  · exact hG
  · exact hV

/-- Witness for C2: the sample oracle answers every generation-backed
call, so the sample run completes with a final "done" transition. -/
theorem revision_loop_terminates_check :
    sampleState.currentNode = NodeId.assess ∧
    sampleState.status = SessionStatus.running ∧
    sampleState.context.generateAttempts = 0 ∧
    ∃ out r, executeGraph 9 sampleState sampleEnv sampleOracle = some out ∧
      out.result = Except.ok r ∧
      out.final.status = SessionStatus.completed ∧ r.status = SessionStatus.completed ∧
      out.final.history.getLast? = some ⟨NodeId.deliver, NodeId.deliver, "done"⟩ :=
  ⟨rfl, rfl, rfl,
   revision_loop_terminates sampleState sampleEnv sampleOracle rfl rfl rfl
     ⟨sampleAssess, rfl⟩ (fun _ => ⟨sampleGenerate, rfl⟩) (fun _ => ⟨sampleValidate, rfl⟩)⟩

/- ─── C7 ─── -/

/-- C7: when control reaches the deploy node and the credentials are
missing (JS-falsy) or the single deploy call throws, the node routes to
deliver with edge "deploy_failed" instead of propagating, the run still
completes, the result summary carries no live-site URL, and the
deploy-failure transition is immediately followed by the terminal
delivery transition. -/
theorem deploy_failure_degrades (f : ℕ) (st : ExecutionState) (env : GraphEnv)
    (o : Oracle) (hn : st.currentNode = NodeId.deploy)
    (hs : st.status = SessionStatus.running)
    (he : ∃ g, st.context.enhancement = some g)
    (hfail : (!(optTruthy env.CLOUDFLARE_API_TOKEN) ||
        !(optTruthy env.CLOUDFLARE_ACCOUNT_ID)) = true
      ∨ ∃ msg, o.deploy = Except.error msg) :
    ∃ out r, executeGraph (f + 1) st env o = some out ∧ out.result = Except.ok r ∧
      r.status = SessionStatus.completed ∧ r.siteUrl = none ∧
      out.final.status = SessionStatus.completed ∧
      out.final.history = st.history ++
        [{ from_ := NodeId.deploy, to_ := NodeId.deliver, edge := "deploy_failed" },
         { from_ := NodeId.deliver, to_ := NodeId.deliver, edge := "done" }] ∧
      r.history = out.final.history := by
  obtain ⟨sid, cn, ctx, hist, stat, err⟩ := st
  simp only at hn hs he ⊢
  subst hn
  subst hs
  rcases he with ⟨g, hg⟩
  have heq : executeNode NodeId.deploy ctx env o =
      (ctx, Except.ok
        { output := NodeOutput.deployOut
            { projectName := "", deploymentUrl := "", deploymentId := "", edge := "deployed" }
          nextNode := NodeId.deliver, edge := "deploy_failed" }) := by
    rcases hfail with hc | ⟨msg, hd⟩
    · simp [executeNode, hc]
    · by_cases hc : (!(optTruthy env.CLOUDFLARE_API_TOKEN) ||
          !(optTruthy env.CLOUDFLARE_ACCOUNT_ID)) = true
      · simp [executeNode, hc]
      · simp [executeNode, hc, hd]
  have hloop : graphLoop env o (f + 1)
      ⟨sid, NodeId.deploy, ctx, hist, SessionStatus.running, err⟩ [] =
      some (Except.ok (),
        ⟨sid, NodeId.deliver,
         { ctx with deployment := some { projectName := "", deploymentUrl := "", deploymentId := "", edge := "deployed" } },
         hist ++ [{ from_ := NodeId.deploy, to_ := NodeId.deliver, edge := "deploy_failed" }],
         SessionStatus.running, err⟩,
        if env.kvConfigured then
          [⟨sid, NodeId.deliver,
            { ctx with deployment := some { projectName := "", deploymentUrl := "", deploymentId := "", edge := "deployed" } },
            hist ++ [{ from_ := NodeId.deploy, to_ := NodeId.deliver, edge := "deploy_failed" }],
            SessionStatus.running, err⟩]
        else []) := by
    simp only [graphLoop]
    rw [if_neg (by simp)]
    simp only [heq]
    dsimp only [applyOutput]
    rw [graphLoop_exit env o f _ _ rfl]
    simp
  rcases executeDeliverNode_ok
      { ctx with deployment := some { projectName := "", deploymentUrl := "", deploymentId := "", edge := "deployed" } }
      env o (by simp [hg]) with ⟨d, hd⟩
  have hrun : executeGraph (f + 1)
      ⟨sid, NodeId.deploy, ctx, hist, SessionStatus.running, err⟩ env o = some
      { result := Except.ok (buildResult
          ⟨sid, NodeId.deliver,
           { ctx with deployment := some { projectName := "", deploymentUrl := "", deploymentId := "", edge := "deployed" }, delivery := some d },
           (hist ++ [{ from_ := NodeId.deploy, to_ := NodeId.deliver, edge := "deploy_failed" }]) ++ [{ from_ := NodeId.deliver, to_ := NodeId.deliver, edge := "done" }],
           SessionStatus.completed, err⟩)
        final :=
          ⟨sid, NodeId.deliver,
           { ctx with deployment := some { projectName := "", deploymentUrl := "", deploymentId := "", edge := "deployed" }, delivery := some d },
           (hist ++ [{ from_ := NodeId.deploy, to_ := NodeId.deliver, edge := "deploy_failed" }]) ++ [{ from_ := NodeId.deliver, to_ := NodeId.deliver, edge := "done" }],
           SessionStatus.completed, err⟩
        saves := if env.kvConfigured then
            [⟨sid, NodeId.deliver,
              { ctx with deployment := some { projectName := "", deploymentUrl := "", deploymentId := "", edge := "deployed" } },
              hist ++ [{ from_ := NodeId.deploy, to_ := NodeId.deliver, edge := "deploy_failed" }],
              SessionStatus.running, err⟩] ++
            [⟨sid, NodeId.deliver,
              { ctx with deployment := some { projectName := "", deploymentUrl := "", deploymentId := "", edge := "deployed" }, delivery := some d },
              (hist ++ [{ from_ := NodeId.deploy, to_ := NodeId.deliver, edge := "deploy_failed" }]) ++ [{ from_ := NodeId.deliver, to_ := NodeId.deliver, edge := "done" }],
              SessionStatus.completed, err⟩]
          else [] } := by
    unfold executeGraph
    rw [hloop]
    dsimp only
    rw [hd]
    by_cases hkv : env.kvConfigured = true <;> simp [hkv]
  exact ⟨_, _, hrun, rfl, rfl, rfl, rfl, by simp, rfl⟩

/-- Witness for C7: the sample environment has no Cloudflare credentials,
so a run sitting at the deploy node (with the generate output present)
degrades to delivery and completes without a site URL. -/
theorem deploy_failure_degrades_check :
    sampleDeployState.currentNode = NodeId.deploy ∧
    sampleDeployState.status = SessionStatus.running ∧
    sampleDeployState.context.enhancement = some sampleGenerate ∧
    (!(optTruthy sampleEnv.CLOUDFLARE_API_TOKEN) ||
      !(optTruthy sampleEnv.CLOUDFLARE_ACCOUNT_ID)) = true ∧
    ∃ out r, executeGraph 2 sampleDeployState sampleEnv sampleOracle = some out ∧
      out.result = Except.ok r ∧
      r.status = SessionStatus.completed ∧ r.siteUrl = none ∧
      out.final.status = SessionStatus.completed ∧
      out.final.history = sampleDeployState.history ++
        [{ from_ := NodeId.deploy, to_ := NodeId.deliver, edge := "deploy_failed" },
         { from_ := NodeId.deliver, to_ := NodeId.deliver, edge := "done" }] ∧
      r.history = out.final.history :=
  ⟨rfl, rfl, rfl, rfl,
   deploy_failure_degrades 1 sampleDeployState sampleEnv sampleOracle rfl rfl
     ⟨sampleGenerate, rfl⟩ (Or.inl rfl)⟩
